import Mathlib

/-!
Shallow embedding of `src/rag_step1_scraping/src/scrape.py` (a polite scraper
building a small deduplicated plain-text corpus) and proofs about the claims
of its specification.

Python strings are modelled as Lean `String`; operations that matter to the
claims (strip, startswith, substring membership, split, replace, utf-8
encoding, sha1) are implemented over `String.data : List Char` so that every
definition is executable and kernel-reducible.  External collaborators
(HTTP transport, HTML parsing, trafilatura extraction, robots.txt grammar,
the filesystem, the clock and the random generator) are passed in as
explicit environment values, exactly at the points where the source consults
them.
-/

namespace Scrape

/-! ## Python string primitives -/

/-- Whitespace recognised by Python `str.strip()` (ASCII subset: space, tab,
newline, carriage return, vertical tab, form feed). -/
def pyWS (c : Char) : Bool :=
  c = ' ' || c = '\t' || c = '\n' || c = '\r' || c.toNat = 11 || c.toNat = 12

/-- Strip characters satisfying `p` from both ends of a character list. -/
def stripList (p : Char → Bool) (l : List Char) : List Char :=
  ((l.dropWhile p).reverse.dropWhile p).reverse

/-- Models Python `s.strip()`. -/
def pyStrip (s : String) : String := ⟨stripList pyWS s.data⟩

/-- Models Python `s.strip(c)` for a single strip character `c`. -/
def pyStripChar (s : String) (c : Char) : String := ⟨stripList (· = c) s.data⟩

/-- If `l = pat ++ rest`, return `some rest`, else `none`. -/
def dropPre : List Char → List Char → Option (List Char)
  | [], l => some l
  | _ :: _, [] => none
  | p :: ps, c :: cs => if c = p then dropPre ps cs else none

/-- Models Python `s.startswith(pat)`. -/
def pyStartsWith (s pat : String) : Bool := (dropPre pat.data s.data).isSome

/-- Split at the first occurrence of `pat` (intended for nonempty `pat`):
`splitOnce pat l = some (before, after)` when `l = before ++ pat ++ after`
with the leftmost such `before`. -/
def splitOnce (pat : List Char) : List Char → Option (List Char × List Char)
  | [] => if (dropPre pat ([] : List Char)).isSome then some ([], []) else none
  | c :: cs =>
    match dropPre pat (c :: cs) with
    | some rest => some ([], rest)
    | none =>
      match splitOnce pat cs with
      | some (a, b) => some (c :: a, b)
      | none => none

/-- Models Python `pat in s` for nonempty `pat`. -/
def pyIn (pat s : String) : Bool := (splitOnce pat.data s.data).isSome

/-- The text after the last occurrence of `pat`, if `pat` occurs. -/
def afterLast (pat : List Char) : List Char → Option (List Char)
  | [] => dropPre pat ([] : List Char)
  | c :: cs =>
    match afterLast pat cs with
    | some r => some r
    | none => dropPre pat (c :: cs)

/-- Models Python `s.split(pat)[-1]` for nonempty `pat`. -/
def pySplitLast (s pat : String) : String :=
  match afterLast pat.data s.data with
  | some r => ⟨r⟩
  | none => s

/-- Models Python `s.replace(a, b)` for single characters `a`, `b`. -/
def pyReplaceChar (s : String) (a b : Char) : String :=
  ⟨s.data.map (fun c => if c = a then b else c)⟩

/-- Value of a hexadecimal digit character, if it is one. -/
def hexVal (c : Char) : Option Nat :=
  if '0' ≤ c ∧ c ≤ '9' then some (c.toNat - 48)
  else if 'a' ≤ c ∧ c ≤ 'f' then some (c.toNat - 87)
  else if 'A' ≤ c ∧ c ≤ 'F' then some (c.toNat - 55)
  else none

/-- Percent-decoding on characters; invalid escapes are left untouched. -/
def unquoteL : List Char → List Char
  | '%' :: a :: b :: rest =>
    match hexVal a, hexVal b with
    | some x, some y => Char.ofNat (16 * x + y) :: unquoteL rest
    | _, _ => '%' :: unquoteL (a :: b :: rest)
  | c :: rest => c :: unquoteL rest
  | [] => []

/-- Models `urllib.parse.unquote` for ASCII percent-escapes (the only shapes
exercised by this program's claims). -/
def unquote (s : String) : String := ⟨unquoteL s.data⟩

/-- Python truthiness of an optional string: `None` and `""` are falsy. -/
def pyFalsy : Option String → Bool
  | none => true
  | some s => s = ""

/-- Models Python `x or ""` for an optional string `x`. -/
def pyOrEmpty : Option String → String
  | none => ""
  | some s => s

/-! ## UTF-8 encoding and byte length -/

/-- UTF-8 encoding of one character, as a list of byte values. -/
def charBytes (c : Char) : List Nat :=
  let n := c.toNat
  if n < 128 then [n]
  else if n < 2048 then [192 + n / 64, 128 + n % 64]
  else if n < 65536 then [224 + n / 4096, 128 + (n / 64) % 64, 128 + n % 64]
  else [240 + n / 262144, 128 + (n / 4096) % 64, 128 + (n / 64) % 64, 128 + n % 64]

/-- Models Python `s.encode("utf-8")`, as a list of byte values. -/
def strBytes (s : String) : List Nat :=
  s.data.foldr (fun c acc => charBytes c ++ acc) []

/-- Models Python `len(s.encode("utf-8"))`. -/
def utf8Size (s : String) : Nat := (strBytes s).length

/-! ## SHA-1 (models `hashlib.sha1`) -/

/-- Truncate to a 32-bit word. -/
def w32 (n : Nat) : Nat := n % 4294967296

/-- Rotate a 32-bit word left by `s` bits (for `0 < s < 32`). -/
def rotl (s n : Nat) : Nat := w32 ((n <<< s) + (n >>> (32 - s)))

/-- The SHA-1 round function for round `t`. -/
def sha1F (t b c d : Nat) : Nat :=
  if t < 20 then (b &&& c) ||| ((b ^^^ 4294967295) &&& d)
  else if t < 40 then b ^^^ c ^^^ d
  else if t < 60 then (b &&& c) ||| (b &&& d) ||| (c &&& d)
  else b ^^^ c ^^^ d

/-- The SHA-1 round constant for round `t`. -/
def sha1K (t : Nat) : Nat :=
  if t < 20 then 1518500249
  else if t < 40 then 1859775393
  else if t < 60 then 2400959708
  else 3395469782

/-- Big-endian 8-byte encoding of a (64-bit) length value. -/
def be64 (n : Nat) : List Nat :=
  [(n >>> 56) % 256, (n >>> 48) % 256, (n >>> 40) % 256, (n >>> 32) % 256,
   (n >>> 24) % 256, (n >>> 16) % 256, (n >>> 8) % 256, n % 256]

/-- SHA-1 message padding: append `0x80`, zeros up to 56 mod 64, and the
big-endian 64-bit bit length. -/
def padMsg (msg : List Nat) : List Nat :=
  let len := msg.length
  let zeros := (120 - (len + 1) % 64) % 64
  msg ++ 128 :: List.replicate zeros 0 ++ be64 (8 * len)

/-- Split a byte list into blocks of 64 (fuel-based structural recursion;
each step consumes at least one byte, so `fuel = l.length` always suffices). -/
def chunksAux : Nat → List Nat → List (List Nat)
  | 0, _ => []
  | _ + 1, [] => []
  | fuel + 1, l => (l.take 64) :: chunksAux fuel (l.drop 64)

/-- Split a byte list into blocks of 64. -/
def chunks (l : List Nat) : List (List Nat) := chunksAux l.length l

/-- Big-endian 32-bit words of a 64-byte block. -/
def toWords : List Nat → List Nat
  | a :: b :: c :: d :: rest => (((a * 256 + b) * 256 + c) * 256 + d) :: toWords rest
  | _ => []

/-- Extend 16 message words to the 80-word SHA-1 schedule. -/
def sched (ws : List Nat) : List Nat :=
  let step := fun (acc : Array Nat) (_ : Nat) =>
    let i := acc.size
    acc.push (rotl 1 ((acc.getD (i - 3) 0) ^^^ (acc.getD (i - 8) 0) ^^^
      (acc.getD (i - 14) 0) ^^^ (acc.getD (i - 16) 0)))
  ((List.range 64).foldl step ws.toArray).toList

/-- One SHA-1 compression step over a 64-byte block. -/
def sha1Block (h : Nat × Nat × Nat × Nat × Nat) (block : List Nat) :
    Nat × Nat × Nat × Nat × Nat :=
  let ws := sched (toWords block)
  let (h0, h1, h2, h3, h4) := h
  let step := fun (st : Nat × Nat × Nat × Nat × Nat) (tw : Nat × Nat) =>
    let (a, b, c, d, e) := st
    let (t, w) := tw
    let temp := w32 (rotl 5 a + sha1F t b c d + e + sha1K t + w)
    (temp, a, rotl 30 b, c, d)
  let (a, b, c, d, e) := (List.zip (List.range 80) ws).foldl step (h0, h1, h2, h3, h4)
  (w32 (h0 + a), w32 (h1 + b), w32 (h2 + c), w32 (h3 + d), w32 (h4 + e))

/-- The five 32-bit SHA-1 state words of a byte message. -/
def sha1Words (msg : List Nat) : Nat × Nat × Nat × Nat × Nat :=
  (chunks (padMsg msg)).foldl sha1Block
    (1732584193, 4023233417, 2562383102, 271733878, 3285377520)

/-- Lower-case hexadecimal digit. -/
def hexDigit (v : Nat) : Char :=
  if v < 10 then Char.ofNat (48 + v) else Char.ofNat (87 + v)

/-- Eight-hex-digit rendering of a 32-bit word (zero padded, lower case). -/
def hex8 (n : Nat) : List Char :=
  (List.range 8).reverse.map fun i => hexDigit ((n >>> (4 * i)) % 16)

/-- Models `hashlib.sha1(s.encode("utf-8")).hexdigest()`. -/
def sha1hex (s : String) : String :=
  let (h0, h1, h2, h3, h4) := sha1Words (strBytes s)
  ⟨hex8 h0 ++ hex8 h1 ++ hex8 h2 ++ hex8 h3 ++ hex8 h4⟩

/-! ## URL parsing (models `urllib.parse` for the URL shapes exercised here) -/

/-- Result of `urllib.parse.urlparse`. -/
structure ParsedUrl where
  scheme : String
  netloc : String
  path : String
  query : String
  frag : String
deriving DecidableEq, Repr

/-- Split a string at the first occurrence of a nonempty separator. -/
def splitFirst (s pat : String) : Option (String × String) :=
  (splitOnce pat.data s.data).map fun p => (⟨p.1⟩, ⟨p.2⟩)

/-- Split `path?query#fragment` into its three parts. -/
def splitPQF (l : List Char) : List Char × List Char × List Char :=
  let path := l.takeWhile (fun c => c ≠ '?' && c ≠ '#')
  let rest := l.dropWhile (fun c => c ≠ '?' && c ≠ '#')
  match rest with
  | '?' :: q =>
    let qy := q.takeWhile (fun c => c ≠ '#')
    match q.dropWhile (fun c => c ≠ '#') with
    | '#' :: f => (path, qy, f)
    | _ => (path, qy, [])
  | '#' :: f => (path, [], f)
  | _ => (path, [], [])

/-- Models `urllib.parse.urlparse` for the URL shapes this program exercises:
absolute URLs written with `://`, protocol-relative references starting with
`//`, and scheme-less relative references. -/
def urlparse (url : String) : ParsedUrl :=
  match splitFirst url "://" with
  | some (sc, rest) =>
    let l := rest.data
    let netl := l.takeWhile (fun c => c ≠ '/' && c ≠ '?' && c ≠ '#')
    let (path, qy, fr) := splitPQF (l.dropWhile (fun c => c ≠ '/' && c ≠ '?' && c ≠ '#'))
    ⟨sc, ⟨netl⟩, ⟨path⟩, ⟨qy⟩, ⟨fr⟩⟩
  | none =>
    match dropPre ['/', '/'] url.data with
    | some rest =>
      let netl := rest.takeWhile (fun c => c ≠ '/' && c ≠ '?' && c ≠ '#')
      let (path, qy, fr) := splitPQF (rest.dropWhile (fun c => c ≠ '/' && c ≠ '?' && c ≠ '#'))
      ⟨"", ⟨netl⟩, ⟨path⟩, ⟨qy⟩, ⟨fr⟩⟩
    | none =>
      let (path, qy, fr) := splitPQF url.data
      ⟨"", "", ⟨path⟩, ⟨qy⟩, ⟨fr⟩⟩

/-- The directory part of a path: everything up to and including the last
slash, or `/` when the path has no slash. -/
def dirPart (p : String) : String :=
  let r := p.data.reverse.dropWhile (fun c => c ≠ '/')
  if r = [] then "/" else ⟨r.reverse⟩

/-- Models `urllib.parse.urljoin` for the reference shapes exercised here:
absolute references (with a scheme), protocol-relative (`//host/...`),
root-relative (`/path`), and plain relative references; dot-segment
normalization is not modelled (never exercised by the claims). -/
def urljoin (base url : String) : String :=
  if url = "" then base
  else
    let p := urlparse url
    if p.scheme ≠ "" then url
    else
      let b := urlparse base
      if pyStartsWith url "//" then b.scheme ++ ":" ++ url
      else if pyStartsWith url "/" then b.scheme ++ "://" ++ b.netloc ++ url
      else b.scheme ++ "://" ++ b.netloc ++ dirPart b.path ++ url

/-! ## The scraper (embedding of `scrape.py`) -/

/-- Embeds `slugify` (scrape.py lines 29-36): sanitized `netloc + path` with
runs of characters outside `[a-zA-Z0-9\-_.]` collapsed to a single `-`
(the regex substitution), wrapped structurally with an `inRun` flag. -/
def slugAllowed (c : Char) : Bool :=
  c.isAlpha || c.isDigit || c = '-' || c = '_' || c = '.'

/-- One pass of `re.sub(r"[^a-zA-Z0-9\-_.]+", "-", ·)`: `inRun` records that
the previous character was part of a run already replaced by `-`. -/
def sanitize : Bool → List Char → List Char
  | _, [] => []
  | inRun, c :: cs =>
    if slugAllowed c then c :: sanitize false cs
    else if inRun then sanitize true cs
    else '-' :: sanitize true cs

/-- The sanitized `netloc + path` fragment of `slugify` (scrape.py lines
30-34), with the `"page"` default for an empty result. -/
def slugBase (url : String) : String :=
  let parsed := urlparse url
  let base0 := pyStripChar (parsed.netloc ++ parsed.path) '/'
  let base1 : String := ⟨sanitize false base0.data⟩
  if base1 = "" then "page" else base1

/-- Embeds `slugify` (scrape.py lines 29-36): the sanitized fragment, a
dash, and the first 8 characters of the SHA-1 hex digest of the URL. -/
def slugify (url : String) : String :=
  slugBase url ++ "-" ++ (⟨(sha1hex url).data.take 8⟩ : String)

/-- The URL of the robots.txt resource for a URL's origin, as built by
`ok_by_robots` (scrape.py line 44): `f"{scheme}://{netloc}/robots.txt"`. -/
def robotsUrl (url : String) : String :=
  let parsed := urlparse url
  parsed.scheme ++ "://" ++ parsed.netloc ++ "/robots.txt"

/-- A URL's origin: the scheme-plus-authority prefix, the part of the URL
that `ok_by_robots` uses to locate the origin's robots.txt. -/
def origin (url : String) : String :=
  let parsed := urlparse url
  parsed.scheme ++ "://" ++ parsed.netloc

/-- Embeds `ok_by_robots` (scrape.py lines 42-52).  `net` maps the computed
robots URL to the outcome of `set_url`/`read`/`can_fetch`: either the parsed
policy (a can-fetch predicate over user agent and URL), or `.error` when any
of those raised.  The `except Exception: return True` branch is the fail-open
default. -/
def ok_by_robots (net : String → Except Unit (String → String → Bool))
    (url ua : String) : Bool :=
  match net (robotsUrl url) with
  | .ok canFetch => canFetch ua url
  | .error _ => true

/-- Network outcome for the Wikipedia REST endpoints of one URL:
`status`/`body` are the plain-text endpoint's `r.status_code`/`r.text`;
`summaryTitle` is the summary lookup: `.error` when that inner request or
its JSON decoding raised, `.ok none` when the response was not `s.ok`, and
`.ok (some t)` when `s.ok` held with `s.json().get("title") = t`. -/
structure WikiNet where
  status : Nat
  body : String
  summaryTitle : Except Unit (Option (Option String))

/-- Embeds `fetch_wikipedia_plain` (scrape.py lines 54-71).  `net` is
`.error` when the plain-endpoint `session.get` itself raised (which
propagates to the caller), and carries the responses otherwise. -/
def fetch_wikipedia_plain (net : Except Unit WikiNet) (url : String) :
    Except Unit (Option String × Option String) :=
  let parsed := urlparse url
  if ¬ pyIn "wikipedia.org" parsed.netloc || ¬ pyIn "/wiki/" parsed.path then
    .ok (none, none)
  else
    let title := unquote (pySplitLast parsed.path "/wiki/")
    match net with
    | .error e => .error e
    | .ok w =>
      if w.status ≠ 200 || pyStrip w.body = "" then .ok (none, none)
      else
        let doc_title : Option String :=
          match w.summaryTitle with
          | .error _ => some (pyReplaceChar title '_' ' ')
          | .ok none => some (pyReplaceChar title '_' ' ')
          | .ok (some t) => t
        .ok (doc_title, some w.body)

/-- Python `set.add` on a duplicate-free list: append when absent. -/
def pySetAdd (links : List String) (u : String) : List String :=
  if u ∈ links then links else links ++ [u]

/-- The loop body of `collect_links` (scrape.py lines 89-96): strip the
href, drop fragment-only / `mailto:` / `javascript:` hrefs, resolve against
the base URL, drop cross-domain results when `same_domain` is set, and add
the survivor to the set. -/
def linkStep (base_url base_domain : String) (same_domain : Bool)
    (links : List String) (href0 : String) : List String :=
  let href := pyStrip href0
  if pyStartsWith href "#" || pyStartsWith href "mailto:"
      || pyStartsWith href "javascript:" then links
  else
    let abs_url := urljoin base_url href
    if same_domain && (urlparse abs_url).netloc ≠ base_domain then links
    else pySetAdd links abs_url

/-- Embeds `collect_links` (scrape.py lines 85-97).  HTML parsing is an
external collaborator, so the page is given as the list of `href` attributes
of its `<a href=...>` anchors, in document order. -/
def collect_links (base_url : String) (anchors : List String)
    (same_domain : Bool) : List String :=
  anchors.foldl (linkStep base_url (urlparse base_url).netloc same_domain) []

/-- The file content built by `save_txt` (scrape.py lines 99-110): three
header lines, a blank line, the stripped body text, and a trailing newline.
`ts` is the `time.strftime` timestamp taken at the moment of the write. -/
def save_txt_content (url : String) (title : Option String) (text ts : String) :
    String :=
  let header := ["URL: " ++ url,
                 pyStrip ("TITLE: " ++ pyOrEmpty title),
                 "CRAWLED_AT: " ++ ts]
  String.intercalate "\n" header ++ "\n\n" ++ pyStrip text ++ "\n"

/-- Embeds `save_txt` (scrape.py lines 99-110): prepends the written file
(path, content) to the directory listing and returns the new listing with
the byte count `len(content.encode("utf-8"))`. -/
def save_txt (out : List (String × String)) (url : String)
    (title : Option String) (text ts : String) : List (String × String) × Nat :=
  let slug := slugify url
  let content := save_txt_content url title text ts
  ((slug ++ ".txt", content) :: out, utf8Size content)

/-- The mutable run state of `main` (scrape.py lines 137-139), plus `files`,
which records the writes made to the output directory (newest first). -/
structure Ledger where
  seen_urls : List String
  seen_hashes : List String
  total_bytes : Nat
  files : List (String × String)
deriving DecidableEq, Repr

/-- The configuration surface of one run (scrape.py lines 114-122), limited
to the fields the embedded control flow reads. -/
structure Config where
  max_total_bytes : Nat
  crawl : Bool
  max_follow : Int
  same_domain : Bool
  user_agent : String

/-- The network's behavior while `process_url` handles one URL: the robots
outcome, the Wikipedia REST outcome, the general `session.get` outcome
(Content-Type header and body, or a raised exception), the trafilatura
extraction outcome on that body, and the wall-clock timestamp at save time. -/
structure Env where
  robots : String → Except Unit (String → String → Bool)
  wiki : Except Unit WikiNet
  fallback : Except Unit (String × String)
  extract : Except Unit (Option String × Option String)
  timestamp : String

/-- The per-decision log signals of one candidate (scrape.py logging calls). -/
inductive Signal where
  | skipVisited | skipBudget | robotsBlocked | skipNonHtml | extractionFailed
  | duplicate | saved (added : Nat) | error | crawlError
deriving DecidableEq, Repr

/-- `seen_urls.add(url)` (scrape.py line 145). -/
def markVisited (l : Ledger) (url : String) : Ledger :=
  { l with seen_urls := url :: l.seen_urls }

/-- The dedup-and-save tail of `process_url` (scrape.py lines 171-181):
fingerprint the stripped text, stop on a seen fingerprint, otherwise record
it, write the file and add its byte count to `total_bytes`. -/
def finishSave (env : Env) (l : Ledger) (url : String)
    (title : Option String) (text : String) : Ledger × Signal :=
  let h := sha1hex (pyStrip text)
  if h ∈ l.seen_hashes then (l, .duplicate)
  else
    let l1 := { l with seen_hashes := h :: l.seen_hashes }
    let (files, added) := save_txt l1.files url title text env.timestamp
    ({ l1 with files := files, total_bytes := l1.total_bytes + added },
     .saved added)

/-- Embeds `process_url` (scrape.py lines 141-184). -/
def process_url (cfg : Config) (env : Env) (l : Ledger) (url : String) :
    Ledger × Signal :=
  if url ∈ l.seen_urls then (l, .skipVisited)
  else
    let l := markVisited l url
    if cfg.max_total_bytes ≤ l.total_bytes then (l, .skipBudget)
    else if ¬ ok_by_robots env.robots url cfg.user_agent then (l, .robotsBlocked)
    else
      match fetch_wikipedia_plain env.wiki url with
      | .error _ => (l, .error)
      | .ok (title, text) =>
        if pyFalsy text then
          match env.fallback with
          | .error _ => (l, .error)
          | .ok (ctype, _html) =>
            if ¬ pyIn "text/html" ctype then (l, .skipNonHtml)
            else
              match env.extract with
              | .error _ => (l, .error)
              | .ok (title2, text2) =>
                if pyFalsy text2 || (pyStrip (pyOrEmpty text2)).length < 300 then
                  (l, .extractionFailed)
                else finishSave env l url title2 (pyOrEmpty text2)
        else finishSave env l url title (pyOrEmpty text)

/-! ## The crawl orchestrator (embedding of `main`, scrape.py lines 186-205) -/

/-- The network's behavior over a whole run: `proc` gives each processed
URL's `Env`; `page` gives the seed re-fetch for link discovery
(`r.ok`, the Content-Type header, and the anchors of `r.text`), or `.error`
when it raised; `shuffle` is the `random.shuffle` outcome for a seed's
link list. -/
structure Net where
  proc : String → Env
  page : String → Except Unit (Bool × String × List String)
  shuffle : String → List String → List String

/-- The run log: one `(url, signal)` entry per processed candidate. -/
abbrev Trace := List (String × Signal)

/-- Process one candidate and append its log entry. -/
def processAndLog (cfg : Config) (net : Net) (st : Ledger × Trace)
    (url : String) : Ledger × Trace :=
  ((process_url cfg (net.proc url) st.1 url).1,
   st.2 ++ [(url, (process_url cfg (net.proc url) st.1 url).2)])

/-- Models Python `xs[:n]` for an `int` bound `n` (negative bounds count
from the end). -/
def pySliceTo (xs : List String) (n : Int) : List String :=
  xs.take (if 0 ≤ n then n.toNat else ((xs.length : Int) + n).toNat)

/-- The links `main` iterates for one seed:
`links[:max(0, args.max_follow)]` after shuffling (scrape.py lines 197-199). -/
def followList (cfg : Config) (net : Net) (seed : String)
    (anchors : List String) : List String :=
  let links := collect_links seed anchors cfg.same_domain
  pySliceTo (net.shuffle seed links) (max 0 cfg.max_follow)

/-- The inner link loop (scrape.py lines 199-203), with its budget `break`. -/
def followLinks (cfg : Config) (net : Net) :
    List String → Ledger × Trace → Ledger × Trace
  | [], st => st
  | link :: rest, st =>
    if cfg.max_total_bytes ≤ st.1.total_bytes then st
    else followLinks cfg net rest (processAndLog cfg net st link)

/-- The crawl-expansion block for one seed (scrape.py lines 192-205). -/
def crawlSeed (cfg : Config) (net : Net) (seed : String)
    (st : Ledger × Trace) : Ledger × Trace :=
  if cfg.crawl && st.1.total_bytes < cfg.max_total_bytes then
    match net.page seed with
    | .error _ => (st.1, st.2 ++ [(seed, .crawlError)])
    | .ok (rok, ctype, anchors) =>
      if rok && pyIn "text/html" ctype then
        followLinks cfg net (followList cfg net seed anchors) st
      else st
  else st

/-- The seed loop of `main` (scrape.py lines 186-205), with its budget
`break`. -/
def runSeeds (cfg : Config) (net : Net) :
    List String → Ledger × Trace → Ledger × Trace
  | [], st => st
  | seed :: rest, st =>
    if cfg.max_total_bytes ≤ st.1.total_bytes then st
    else runSeeds cfg net rest (crawlSeed cfg net seed (processAndLog cfg net st seed))

/-- A whole run of `main` from an empty ledger. -/
def run (cfg : Config) (net : Net) (seeds : List String) : Ledger × Trace :=
  runSeeds cfg net seeds (⟨[], [], 0, []⟩, [])

/-- The byte count a log signal contributed to `total_bytes`. -/
def savedBytes : Signal → Nat
  | .saved n => n
  | _ => 0

/-- The largest single saved-page size recorded in a trace. -/
def maxSaved (tr : Trace) : Nat :=
  tr.foldl (fun m e => Nat.max m (savedBytes e.2)) 0

/-! ## Claim C4: the Politeness Gate fails open -/

/-- C4: for every URL and user agent, when retrieving or parsing the
origin's robots.txt raises any exception the Politeness Gate fails open
(`ok_by_robots` returns `true`); when the robots resource was read
successfully it returns exactly the parsed allow/deny evaluation. -/
theorem robots_gate_fails_open
    (net : String → Except Unit (String → String → Bool)) (url ua : String) :
    (∀ e, net (robotsUrl url) = .error e → ok_by_robots net url ua = true)
    ∧ (∀ f, net (robotsUrl url) = .ok f → ok_by_robots net url ua = f ua url) := by
  refine ⟨fun e h => ?_, fun f h => ?_⟩ <;> simp [ok_by_robots, h]

/-- Witness for C4 at a concrete URL: a raising robots fetch yields `true`,
a successfully parsed deny-all policy yields its own verdict `false`. -/
theorem robots_gate_fails_open_witness :
    ok_by_robots (fun _ => .error ()) "http://a.example/x" "UA" = true
    ∧ ok_by_robots (fun _ => .ok (fun _ _ => false)) "http://a.example/x" "UA"
        = false := by
  refine ⟨(robots_gate_fails_open (fun _ => .error ()) "http://a.example/x" "UA").1
    () rfl, ?_⟩
  exact (robots_gate_fails_open (fun _ => .ok (fun _ _ => false))
    "http://a.example/x" "UA").2 (fun _ _ => false) rfl

/-! ## Claim C9: negative max_follow is clamped to zero -/

/-- C9: when `max_follow` is negative the orchestrator follows zero links
per seed: the followed list `links[:max(0, max_follow)]` is empty (the
`max(0, ·)` clamp prevents the raw negative slice, which would have taken
all but the last `|max_follow|` links), so the link loop leaves the run
state untouched. -/
theorem negative_max_follow_follows_nothing (cfg : Config) (net : Net)
    (seed : String) (anchors : List String) (st : Ledger × Trace)
    (h : cfg.max_follow < 0) :
    followList cfg net seed anchors = []
    ∧ followLinks cfg net (followList cfg net seed anchors) st = st := by
  have hmax : max (0 : Int) cfg.max_follow = 0 := max_eq_left h.le
  have h1 : followList cfg net seed anchors = [] := by
    unfold followList pySliceTo
    rw [hmax]
    simp
  exact ⟨h1, by rw [h1]; rfl⟩

/-- A do-nothing network environment, used to instantiate witnesses. -/
def idleEnv : Env :=
  { robots := fun _ => .error (), wiki := .error (), fallback := .error ()
  , extract := .error (), timestamp := "" }

/-- A network whose every fetch raises and whose shuffle keeps list order,
used to instantiate witnesses. -/
def idleNet : Net :=
  { proc := fun _ => idleEnv, page := fun _ => .error ()
  , shuffle := fun _ l => l }

/-- Witness for C9: a concrete run configuration with `max_follow = -3`
follows no link at all. -/
theorem negative_max_follow_follows_nothing_witness :
    followList ⟨1000, true, -3, false, "UA"⟩ idleNet "http://s.example/"
        ["a.html", "b.html"] = []
    ∧ followLinks ⟨1000, true, -3, false, "UA"⟩ idleNet
        (followList ⟨1000, true, -3, false, "UA"⟩ idleNet "http://s.example/"
          ["a.html", "b.html"])
        (⟨[], [], 0, []⟩, []) = (⟨[], [], 0, []⟩, []) :=
  negative_max_follow_follows_nothing ⟨1000, true, -3, false, "UA"⟩ idleNet
    "http://s.example/" ["a.html", "b.html"] (⟨[], [], 0, []⟩, []) (by decide)

/-! ## Claim C1: robots-disallowed candidates and the Ledger -/

/-- Configuration for the C1 scenario. -/
def cfg1k : Config := ⟨1000, false, 5, false, "UA"⟩

/-- Environment for the C1 scenario: robots.txt read successfully and
denying every fetch; all other network activity irrelevant. -/
def c1env : Env :=
  { robots := fun _ => .ok (fun _ _ => false), wiki := .error ()
  , fallback := .error (), extract := .error (), timestamp := "" }

/-- C1, as stated, fails on the code: a robots-disallowed fresh URL does
mutate the Ledger — `process_url` adds it to `seen_urls` (line 145) before
the robots check (line 150), so `visited_urls` is not unchanged by the
call. -/
theorem robots_blocked_mutates_visited :
    (process_url cfg1k c1env ⟨[], [], 0, []⟩ "http://blocked.example/page").2
        = Signal.robotsBlocked
    ∧ (process_url cfg1k c1env ⟨[], [], 0, []⟩ "http://blocked.example/page").1.seen_urls
        ≠ ([] : List String) := by
  decide

/-- C1 (amended): a candidate disallowed by robots.txt produces no output
file and no change to `seen_fingerprints` or `total_bytes`, regardless of
content quality — but its URL is recorded in `visited_urls`, which changes
when the URL was fresh. -/
theorem robots_blocked_no_output (cfg : Config) (env : Env) (l : Ledger)
    (url : String)
    (hv : url ∉ l.seen_urls) (hb : l.total_bytes < cfg.max_total_bytes)
    (hr : ok_by_robots env.robots url cfg.user_agent = false) :
    process_url cfg env l url
      = ({ l with seen_urls := url :: l.seen_urls }, .robotsBlocked) := by
  unfold process_url markVisited
  rw [if_neg hv]
  rw [if_neg (Nat.not_le.mpr hb)]
  rw [hr]
  simp

/-- Witness for C1 (amended) at a concrete disallowed URL. -/
theorem robots_blocked_no_output_witness :
    process_url cfg1k c1env ⟨[], [], 0, []⟩ "http://blocked.example/page"
      = (⟨["http://blocked.example/page"], [], 0, []⟩, .robotsBlocked) :=
  robots_blocked_no_output cfg1k c1env ⟨[], [], 0, []⟩
    "http://blocked.example/page" (by decide) (by decide) (by decide)

/-! ## Path lemmas for `process_url` -/

/-- A URL already in `seen_urls` short-circuits with no state change. -/
theorem process_url_visited (cfg : Config) (env : Env) (l : Ledger)
    (url : String) (h : url ∈ l.seen_urls) :
    process_url cfg env l url = (l, .skipVisited) := by
  unfold process_url
  rw [if_pos h]

/-- `finishSave` never touches `seen_urls`. -/
theorem finishSave_seen (env : Env) (l : Ledger) (url : String)
    (t : Option String) (x : String) :
    (finishSave env l url t x).1.seen_urls = l.seen_urls := by
  simp only [finishSave, save_txt]
  split <;> rfl

/-- After any call, the processed URL is in `seen_urls`. -/
theorem mem_seen_after (cfg : Config) (env : Env) (l : Ledger) (url : String) :
    url ∈ (process_url cfg env l url).1.seen_urls := by
  by_cases h : url ∈ l.seen_urls
  · rw [process_url_visited cfg env l url h]
    exact h
  · simp only [process_url, markVisited, finishSave, save_txt]
    rw [if_neg h]
    repeat' split
    all_goals simp

/-- `pyFalsy` on a nonempty string is false. -/
theorem pyFalsy_some_false {t : String} (ht : ¬ t = "") :
    pyFalsy (some t) = false := by
  simp [pyFalsy, ht]

/-- The successful wiki-path save: fresh URL, budget open, robots allow,
plain text retrieved, fingerprint fresh — one file is written and its byte
count is added. -/
theorem process_url_wiki_save (cfg : Config) (env : Env) (l : Ledger)
    (url : String) (title : Option String) (t : String)
    (hv : url ∉ l.seen_urls) (hb : l.total_bytes < cfg.max_total_bytes)
    (hr : ok_by_robots env.robots url cfg.user_agent = true)
    (hw : fetch_wikipedia_plain env.wiki url = .ok (title, some t))
    (ht : ¬ t = "")
    (hh : sha1hex (pyStrip t) ∉ l.seen_hashes) :
    process_url cfg env l url
      = ({ l with
            seen_urls := url :: l.seen_urls,
            seen_hashes := sha1hex (pyStrip t) :: l.seen_hashes,
            total_bytes := l.total_bytes
              + utf8Size (save_txt_content url title t env.timestamp),
            files := (slugify url ++ ".txt",
                      save_txt_content url title t env.timestamp) :: l.files },
         .saved (utf8Size (save_txt_content url title t env.timestamp))) := by
  simp [process_url, markVisited, finishSave, save_txt, hv, Nat.not_le.mpr hb,
        hr, hw, pyFalsy_some_false ht, hh, pyOrEmpty]

/-- The wiki-path duplicate: same premises but the fingerprint was already
seen — nothing is written, DUPLICATE is logged. -/
theorem process_url_wiki_dup (cfg : Config) (env : Env) (l : Ledger)
    (url : String) (title : Option String) (t : String)
    (hv : url ∉ l.seen_urls) (hb : l.total_bytes < cfg.max_total_bytes)
    (hr : ok_by_robots env.robots url cfg.user_agent = true)
    (hw : fetch_wikipedia_plain env.wiki url = .ok (title, some t))
    (ht : ¬ t = "")
    (hh : sha1hex (pyStrip t) ∈ l.seen_hashes) :
    process_url cfg env l url
      = ({ l with seen_urls := url :: l.seen_urls }, .duplicate) := by
  simp [process_url, markVisited, finishSave, hv, Nat.not_le.mpr hb,
        hr, hw, pyFalsy_some_false ht, hh, pyOrEmpty]

/-! ## Claim C3: a URL has observable side effects at most once -/

/-- C3: presenting a URL to `process_url` a second time — under any network
environment — short-circuits at the visited-URL check and changes nothing:
the Ledger (including `total_bytes` and the output files) is returned
exactly as it was after the first presentation. -/
theorem second_presentation_noop (cfg : Config) (env1 env2 : Env)
    (l : Ledger) (url : String) :
    process_url cfg env2 (process_url cfg env1 l url).1 url
      = ((process_url cfg env1 l url).1, .skipVisited) :=
  process_url_visited cfg env2 _ url (mem_seen_after cfg env1 l url)

/-! ## Claim C5: fallback rejections (SKIP-NONHTML, EXTRACTION-FAILED/SHORT) -/

/-- The fallback path rejecting a non-HTML Content-Type. -/
theorem process_url_nonhtml (cfg : Config) (env : Env) (l : Ledger)
    (url ctype html : String)
    (hv : url ∉ l.seen_urls) (hb : l.total_bytes < cfg.max_total_bytes)
    (hr : ok_by_robots env.robots url cfg.user_agent = true)
    (hw : fetch_wikipedia_plain env.wiki url = .ok (none, none))
    (hf : env.fallback = .ok (ctype, html))
    (hct : pyIn "text/html" ctype = false) :
    process_url cfg env l url
      = ({ l with seen_urls := url :: l.seen_urls }, .skipNonHtml) := by
  simp [process_url, markVisited, hv, Nat.not_le.mpr hb, hr, hw, hf, hct,
        pyFalsy]

/-- The fallback path rejecting a short extraction. -/
theorem process_url_extraction_short (cfg : Config) (env : Env) (l : Ledger)
    (url ctype html : String) (t2 x2 : Option String)
    (hv : url ∉ l.seen_urls) (hb : l.total_bytes < cfg.max_total_bytes)
    (hr : ok_by_robots env.robots url cfg.user_agent = true)
    (hw : fetch_wikipedia_plain env.wiki url = .ok (none, none))
    (hf : env.fallback = .ok (ctype, html))
    (hct : pyIn "text/html" ctype = true)
    (he : env.extract = .ok (t2, x2))
    (hshort : (pyStrip (pyOrEmpty x2)).length < 300) :
    process_url cfg env l url
      = ({ l with seen_urls := url :: l.seen_urls }, .extractionFailed) := by
  simp [process_url, markVisited, hv, Nat.not_le.mpr hb, hr, hw, hf, hct, he,
        pyFalsy, hshort]

/-- C5: on the general fallback path, a response whose Content-Type is not
HTML is rejected as SKIP-NONHTML without reaching extraction (the
conclusion does not depend on `env1.extract`), and an extraction whose
trimmed text is shorter than 300 characters is rejected as
EXTRACTION-FAILED/SHORT; in both cases no file is written and
`total_bytes` is unchanged (only `seen_urls` gains the URL). -/
theorem fallback_rejections (cfg : Config) (env1 env2 : Env) (l : Ledger)
    (url1 url2 ctype1 html1 ctype2 html2 : String) (t2 x2 : Option String)
    (hv1 : url1 ∉ l.seen_urls) (hv2 : url2 ∉ l.seen_urls)
    (hb : l.total_bytes < cfg.max_total_bytes)
    (hr1 : ok_by_robots env1.robots url1 cfg.user_agent = true)
    (hr2 : ok_by_robots env2.robots url2 cfg.user_agent = true)
    (hw1 : fetch_wikipedia_plain env1.wiki url1 = .ok (none, none))
    (hw2 : fetch_wikipedia_plain env2.wiki url2 = .ok (none, none))
    (hf1 : env1.fallback = .ok (ctype1, html1))
    (hct1 : pyIn "text/html" ctype1 = false)
    (hf2 : env2.fallback = .ok (ctype2, html2))
    (hct2 : pyIn "text/html" ctype2 = true)
    (he2 : env2.extract = .ok (t2, x2))
    (hshort : (pyStrip (pyOrEmpty x2)).length < 300) :
    process_url cfg env1 l url1
      = ({ l with seen_urls := url1 :: l.seen_urls }, .skipNonHtml)
    ∧ process_url cfg env2 l url2
      = ({ l with seen_urls := url2 :: l.seen_urls }, .extractionFailed) :=
  ⟨process_url_nonhtml cfg env1 l url1 ctype1 html1 hv1 hb hr1 hw1 hf1 hct1,
   process_url_extraction_short cfg env2 l url2 ctype2 html2 t2 x2
     hv2 hb hr2 hw2 hf2 hct2 he2 hshort⟩

/-- Environment for the C5 non-HTML scenario: a PDF response. -/
def c5envPdf : Env :=
  { robots := fun _ => .ok (fun _ _ => true), wiki := .error ()
  , fallback := .ok ("application/pdf", ""), extract := .error ()
  , timestamp := "" }

/-- Environment for the C5 short-extraction scenario. -/
def c5envShort : Env :=
  { robots := fun _ => .ok (fun _ _ => true), wiki := .error ()
  , fallback := .ok ("text/html; charset=utf-8", "<html><body>hi</body></html>")
  , extract := .ok (some "T", some "too short"), timestamp := "" }

/-- Witness for C5 at concrete candidates: a PDF and a page whose extracted
text is 9 characters long. -/
theorem fallback_rejections_witness :
    process_url cfg1k c5envPdf ⟨[], [], 0, []⟩ "http://pdf.example/doc"
      = (⟨["http://pdf.example/doc"], [], 0, []⟩, .skipNonHtml)
    ∧ process_url cfg1k c5envShort ⟨[], [], 0, []⟩ "http://short.example/page"
      = (⟨["http://short.example/page"], [], 0, []⟩, .extractionFailed) :=
  fallback_rejections cfg1k c5envPdf c5envShort ⟨[], [], 0, []⟩
    "http://pdf.example/doc" "http://short.example/page"
    "application/pdf" "" "text/html; charset=utf-8"
    "<html><body>hi</body></html>" (some "T") (some "too short")
    (by decide) (by decide) (by decide) (by decide) (by decide)
    rfl rfl rfl (by decide) rfl (by decide) rfl (by decide)

/-! ## Claim C10: the 300-character gate does not apply to the wiki path -/

set_option linter.unusedVariables false in
/-- C10: a candidate acquired via the fast structured (Wikipedia) path whose
body text is non-empty is fingerprinted and saved even when its trimmed
length is below 300 characters — the minimum-length quality gate applies
only to the general fallback path (the hypothesis `hshort` is deliberately
unused by the proof: the wiki path never consults the length). -/
theorem wiki_short_text_saved (cfg : Config) (env : Env) (l : Ledger)
    (url : String) (title : Option String) (t : String)
    (hv : url ∉ l.seen_urls) (hb : l.total_bytes < cfg.max_total_bytes)
    (hr : ok_by_robots env.robots url cfg.user_agent = true)
    (hw : fetch_wikipedia_plain env.wiki url = .ok (title, some t))
    (ht : ¬ t = "")
    (hshort : (pyStrip t).length < 300)
    (hh : sha1hex (pyStrip t) ∉ l.seen_hashes) :
    (process_url cfg env l url).2
        = .saved (utf8Size (save_txt_content url title t env.timestamp))
    ∧ (process_url cfg env l url).1.seen_hashes
        = sha1hex (pyStrip t) :: l.seen_hashes
    ∧ (process_url cfg env l url).1.files
        = (slugify url ++ ".txt", save_txt_content url title t env.timestamp)
            :: l.files := by
  rw [process_url_wiki_save cfg env l url title t hv hb hr hw ht hh]
  exact ⟨rfl, rfl, rfl⟩

/-- Environment for the C10 scenario: the Wikipedia plain endpoint returns a
10-character article. -/
def c10env : Env :=
  { robots := fun _ => .ok (fun _ _ => true)
  , wiki := .ok ⟨200, "Short art.", .ok (some (some "T"))⟩
  , fallback := .error (), extract := .error ()
  , timestamp := "2026-01-01 00:00:00" }

set_option maxRecDepth 100000 in
set_option maxHeartbeats 4000000 in
/-- Witness for C10: a 10-character Wikipedia article is saved. -/
theorem wiki_short_text_saved_witness :
    (process_url cfg1k c10env ⟨[], [], 0, []⟩
        "https://en.wikipedia.org/wiki/Shorty").2
      = .saved (utf8Size (save_txt_content "https://en.wikipedia.org/wiki/Shorty"
          (some "T") "Short art." "2026-01-01 00:00:00"))
    ∧ (process_url cfg1k c10env ⟨[], [], 0, []⟩
        "https://en.wikipedia.org/wiki/Shorty").1.seen_hashes
      = [sha1hex (pyStrip "Short art.")]
    ∧ (process_url cfg1k c10env ⟨[], [], 0, []⟩
        "https://en.wikipedia.org/wiki/Shorty").1.files
      = [("en.wikipedia.org-wiki-Shorty-914ee5ce.txt",
          save_txt_content "https://en.wikipedia.org/wiki/Shorty" (some "T")
            "Short art." "2026-01-01 00:00:00")] := by
  have h := wiki_short_text_saved cfg1k c10env ⟨[], [], 0, []⟩
    "https://en.wikipedia.org/wiki/Shorty" (some "T") "Short art."
    (by decide) (by decide) (by decide) rfl (by decide) (by decide) (by decide)
  refine ⟨h.1, h.2.1, ?_⟩
  rw [h.2.2]
  have hs : slugify "https://en.wikipedia.org/wiki/Shorty" ++ ".txt"
      = "en.wikipedia.org-wiki-Shorty-914ee5ce.txt" := by decide
  rw [hs]
  rfl

/-! ## Claim C6: byte-identical content from two URLs writes one file -/

/-- C6: for two distinct URLs whose acquired body text is byte-identical
after trimming, processing both produces exactly one output file: the first
records the content fingerprint and saves, the second matches the recorded
fingerprint, is logged DUPLICATE, and writes nothing (it only marks the
second URL visited). -/
theorem duplicate_content_one_file (cfg : Config) (env1 env2 : Env)
    (l : Ledger) (u1 u2 : String) (title1 title2 : Option String)
    (t1 t2 : String)
    (hne : ¬ u2 = u1)
    (hv1 : u1 ∉ l.seen_urls) (hv2 : u2 ∉ l.seen_urls)
    (hb1 : l.total_bytes < cfg.max_total_bytes)
    (hr1 : ok_by_robots env1.robots u1 cfg.user_agent = true)
    (hr2 : ok_by_robots env2.robots u2 cfg.user_agent = true)
    (hw1 : fetch_wikipedia_plain env1.wiki u1 = .ok (title1, some t1))
    (hw2 : fetch_wikipedia_plain env2.wiki u2 = .ok (title2, some t2))
    (ht1 : ¬ t1 = "") (ht2 : ¬ t2 = "")
    (heq : pyStrip t1 = pyStrip t2)
    (hh : sha1hex (pyStrip t1) ∉ l.seen_hashes)
    (hb2 : l.total_bytes
        + utf8Size (save_txt_content u1 title1 t1 env1.timestamp)
        < cfg.max_total_bytes) :
    (process_url cfg env1 l u1).2
        = .saved (utf8Size (save_txt_content u1 title1 t1 env1.timestamp))
    ∧ (process_url cfg env1 l u1).1.files
        = (slugify u1 ++ ".txt", save_txt_content u1 title1 t1 env1.timestamp)
            :: l.files
    ∧ process_url cfg env2 (process_url cfg env1 l u1).1 u2
        = ({ (process_url cfg env1 l u1).1 with
              seen_urls := u2 :: (process_url cfg env1 l u1).1.seen_urls },
           .duplicate) := by
  have h1 := process_url_wiki_save cfg env1 l u1 title1 t1 hv1 hb1 hr1 hw1 ht1 hh
  refine ⟨by rw [h1], by rw [h1], ?_⟩
  rw [h1]
  dsimp only
  refine process_url_wiki_dup cfg env2 _ u2 title2 t2 ?_ ?_ hr2 hw2 ht2 ?_
  · simp [hne, hv2]
  · exact hb2
  · rw [← heq]
    exact List.mem_cons_self _ _

/-- Environment for the first C6 URL: the plain endpoint returns the text
without surrounding whitespace. -/
def c6env1 : Env :=
  { robots := fun _ => .ok (fun _ _ => true)
  , wiki := .ok ⟨200, "dup text", .ok (some (some "One"))⟩
  , fallback := .error (), extract := .error ()
  , timestamp := "2026-01-01 00:00:00" }

/-- Environment for the second C6 URL: the plain endpoint returns the same
text padded with whitespace, so the trimmed bytes are identical. -/
def c6env2 : Env :=
  { robots := fun _ => .ok (fun _ _ => true)
  , wiki := .ok ⟨200, "  dup text  ", .ok (some (some "Two"))⟩
  , fallback := .error (), extract := .error ()
  , timestamp := "2026-01-01 00:00:01" }

set_option maxRecDepth 100000 in
set_option maxHeartbeats 4000000 in
/-- Witness for C6: two distinct Wikipedia URLs whose body text agrees after
trimming produce one SAVED and one DUPLICATE. -/
theorem duplicate_content_one_file_witness :
    (process_url cfg1k c6env1 ⟨[], [], 0, []⟩
        "https://en.wikipedia.org/wiki/Dup_One").2
      = .saved (utf8Size (save_txt_content "https://en.wikipedia.org/wiki/Dup_One"
          (some "One") "dup text" "2026-01-01 00:00:00"))
    ∧ (process_url cfg1k c6env1 ⟨[], [], 0, []⟩
        "https://en.wikipedia.org/wiki/Dup_One").1.files
      = [(slugify "https://en.wikipedia.org/wiki/Dup_One" ++ ".txt",
          save_txt_content "https://en.wikipedia.org/wiki/Dup_One"
            (some "One") "dup text" "2026-01-01 00:00:00")]
    ∧ process_url cfg1k c6env2
        (process_url cfg1k c6env1 ⟨[], [], 0, []⟩
          "https://en.wikipedia.org/wiki/Dup_One").1
        "https://en.wikipedia.org/wiki/Dup_Two"
      = ({ (process_url cfg1k c6env1 ⟨[], [], 0, []⟩
              "https://en.wikipedia.org/wiki/Dup_One").1 with
            seen_urls := "https://en.wikipedia.org/wiki/Dup_Two"
              :: (process_url cfg1k c6env1 ⟨[], [], 0, []⟩
                    "https://en.wikipedia.org/wiki/Dup_One").1.seen_urls },
         .duplicate) :=
  duplicate_content_one_file cfg1k c6env1 c6env2 ⟨[], [], 0, []⟩
    "https://en.wikipedia.org/wiki/Dup_One" "https://en.wikipedia.org/wiki/Dup_Two"
    (some "One") (some "Two") "dup text" "  dup text  "
    (by decide) (by decide) (by decide) (by decide) (by decide) (by decide)
    rfl rfl (by decide) (by decide) (by decide) (by decide) (by decide)

/-! ## Claim C7: the Link Discoverer -/

/-- `pySetAdd` preserves freedom from duplicates. -/
theorem pySetAdd_nodup {links : List String} {u : String} (h : links.Nodup) :
    (pySetAdd links u).Nodup := by
  unfold pySetAdd
  split
  · exact h
  · next hmem => simp [List.nodup_append, h, hmem]

/-- Membership in `pySetAdd` comes from the list or is the added element. -/
theorem pySetAdd_mem {links : List String} {u v : String}
    (h : v ∈ pySetAdd links u) : v ∈ links ∨ v = u := by
  unfold pySetAdd at h
  split at h
  · exact .inl h
  · rcases List.mem_append.mp h with h1 | h2
    · exact .inl h1
    · exact .inr (List.mem_singleton.mp h2)

/-- One loop step keeps the link set duplicate-free. -/
theorem linkStep_nodup (base bd : String) (sd : Bool) (links : List String)
    (h0 : String) (h : links.Nodup) :
    (linkStep base bd sd links h0).Nodup := by
  simp only [linkStep]
  split
  · exact h
  · split
    · exact h
    · exact pySetAdd_nodup h

/-- One loop step only adds the resolution of a non-dropped href whose
netloc matches the base domain when `same_domain` is set. -/
theorem linkStep_mem (base bd : String) (sd : Bool) (links : List String)
    (h0 u : String) (hu : u ∈ linkStep base bd sd links h0) :
    u ∈ links
    ∨ (pyStartsWith (pyStrip h0) "#" = false
       ∧ pyStartsWith (pyStrip h0) "mailto:" = false
       ∧ pyStartsWith (pyStrip h0) "javascript:" = false
       ∧ u = urljoin base (pyStrip h0)
       ∧ (sd = true → (urlparse u).netloc = bd)) := by
  simp only [linkStep] at hu
  split at hu
  · exact .inl hu
  · next hpre =>
    split at hu
    · exact .inl hu
    · next hdom =>
      rcases pySetAdd_mem hu with h1 | h2
      · exact .inl h1
      · subst h2
        simp only [Bool.or_eq_true, not_or] at hpre
        obtain ⟨⟨hp1, hp2⟩, hp3⟩ := hpre
        refine .inr ⟨by simpa using hp1, by simpa using hp2,
          by simpa using hp3, rfl, fun hsd => ?_⟩
        subst hsd
        simpa using hdom

/-- Fold invariant for `collect_links`: the accumulated list stays
duplicate-free and every member is either inherited or a good resolution of
one of the anchors seen so far. -/
theorem collect_fold (base bd : String) (sd : Bool) :
    ∀ (anchors acc : List String), acc.Nodup →
      (List.foldl (linkStep base bd sd) acc anchors).Nodup
      ∧ ∀ u ∈ List.foldl (linkStep base bd sd) acc anchors,
          u ∈ acc
          ∨ ∃ h0 ∈ anchors,
              pyStartsWith (pyStrip h0) "#" = false
              ∧ pyStartsWith (pyStrip h0) "mailto:" = false
              ∧ pyStartsWith (pyStrip h0) "javascript:" = false
              ∧ u = urljoin base (pyStrip h0)
              ∧ (sd = true → (urlparse u).netloc = bd)
  | [], acc, h => ⟨h, fun _ hu => .inl hu⟩
  | a :: rest, acc, h => by
    simp only [List.foldl_cons]
    obtain ⟨hn, hm⟩ := collect_fold base bd sd rest (linkStep base bd sd acc a)
      (linkStep_nodup base bd sd acc a h)
    refine ⟨hn, fun u hu => ?_⟩
    rcases hm u hu with hin | ⟨h0, hh0, hg⟩
    · rcases linkStep_mem base bd sd acc a u hin with hin2 | hg
      · exact .inl hin2
      · exact .inr ⟨a, List.mem_cons_self _ _, hg⟩
    · exact .inr ⟨h0, List.mem_cons_of_mem _ hh0, hg⟩

/-- C7, as stated, fails on the code: with `same_domain_only` set, the
filter compares `netloc` only, never the scheme, so a resolved URL whose
origin differs from the base URL's origin in scheme alone is kept. -/
theorem collect_links_keeps_cross_origin :
    collect_links "http://example.com/" ["https://example.com/x"] true
      = ["https://example.com/x"]
    ∧ ¬ origin "https://example.com/x" = origin "http://example.com/" := by
  decide

/-- C7 (amended): the Link Discoverer resolves each anchor href against the
base URL, drops hrefs starting with `#`, `mailto:` or `javascript:`, drops
— when `same_domain_only` is set — every resolved URL whose netloc
(host[:port], not the full scheme-qualified origin) differs from the base
URL's netloc, and returns a collection with no duplicates. -/
theorem collect_links_spec (base : String) (anchors : List String)
    (sd : Bool) :
    (collect_links base anchors sd).Nodup
    ∧ ∀ u ∈ collect_links base anchors sd,
        ∃ h0 ∈ anchors,
          pyStartsWith (pyStrip h0) "#" = false
          ∧ pyStartsWith (pyStrip h0) "mailto:" = false
          ∧ pyStartsWith (pyStrip h0) "javascript:" = false
          ∧ u = urljoin base (pyStrip h0)
          ∧ (sd = true → (urlparse u).netloc = (urlparse base).netloc) := by
  obtain ⟨hn, hm⟩ := collect_fold base (urlparse base).netloc sd anchors []
    List.nodup_nil
  refine ⟨hn, fun u hu => ?_⟩
  rcases hm u hu with hin | hg
  · exact absurd hin (List.not_mem_nil u)
  · exact hg

/-- Witness for C7 (amended) on a concrete page: the discovered relative
link resolves against the base and stays on the base's netloc. -/
theorem collect_links_spec_witness :
    (collect_links "http://example.com/page/sub"
        ["a.html", "#frag", "http://other.org/z"] true).Nodup
    ∧ ∃ h0 ∈ ["a.html", "#frag", "http://other.org/z"],
        pyStartsWith (pyStrip h0) "#" = false
        ∧ pyStartsWith (pyStrip h0) "mailto:" = false
        ∧ pyStartsWith (pyStrip h0) "javascript:" = false
        ∧ "http://example.com/page/a.html"
            = urljoin "http://example.com/page/sub" (pyStrip h0)
        ∧ (true = true
           → (urlparse "http://example.com/page/a.html").netloc
               = (urlparse "http://example.com/page/sub").netloc) :=
  ⟨(collect_links_spec "http://example.com/page/sub"
      ["a.html", "#frag", "http://other.org/z"] true).1,
   (collect_links_spec "http://example.com/page/sub"
      ["a.html", "#frag", "http://other.org/z"] true).2
     "http://example.com/page/a.html" (by decide)⟩

/-! ## Claim C8: file naming on distinct URLs -/

/-- The hexadecimal rendering of a word has exactly eight digits. -/
theorem hex8_length (n : Nat) : (hex8 n).length = 8 := by
  simp [hex8]

/-- The SHA-1 hex digest is 40 characters long. -/
theorem sha1hex_data_length (s : String) : (sha1hex s).data.length = 40 := by
  unfold sha1hex
  rcases sha1Words (strBytes s) with ⟨h0, h1, h2, h3, h4⟩
  simp [hex8]

/-- The character list of a slug is the sanitized fragment, a dash, and the
8-character hash disambiguator. -/
theorem slugify_data (u : String) :
    (slugify u).data = (slugBase u).data ++ '-' :: (sha1hex u).data.take 8 := by
  unfold slugify
  rw [String.data_append, String.data_append]
  simp

set_option maxRecDepth 100000 in
set_option maxHeartbeats 4000000 in
/-- C8, as stated, fails on the code: the disambiguator is only the first 8
hex characters (32 bits) of the URL's SHA-1, so two distinct URLs with the
same sanitized host+path fragment and colliding hash prefixes receive the
same file name. -/
theorem slugify_collision :
    ¬ "http://example.com/a?i=11778" = "http://example.com/a?i=131350"
    ∧ slugify "http://example.com/a?i=11778"
        = slugify "http://example.com/a?i=131350" := by
  decide

/-- C8 (amended): the file name determines the 8-character disambiguator,
so any two URLs whose 8-character SHA-1 prefixes differ get distinct file
names; naming is not injective outright — distinct URLs collide exactly
when both the sanitized fragment and the truncated hash coincide. -/
theorem slug_disambiguator_injective (u v : String)
    (h : ¬ (sha1hex u).data.take 8 = (sha1hex v).data.take 8) :
    ¬ slugify u = slugify v := by
  intro heq
  apply h
  have hd : (slugBase u).data ++ '-' :: (sha1hex u).data.take 8
      = (slugBase v).data ++ '-' :: (sha1hex v).data.take 8 := by
    rw [← slugify_data, ← slugify_data, heq]
  have hlen : ('-' :: (sha1hex u).data.take 8).length
      = ('-' :: (sha1hex v).data.take 8).length := by
    have h40u : (sha1hex u).length = 40 := sha1hex_data_length u
    have h40v : (sha1hex v).length = 40 := sha1hex_data_length v
    simp [List.length_take, h40u, h40v]
  have h2 := (List.append_inj' hd hlen).2
  exact List.cons.injEq _ _ _ _ ▸ (List.cons.inj h2).2

set_option maxRecDepth 100000 in
set_option maxHeartbeats 8000000 in
/-- Witness for C8 (amended): two concrete URLs with differing hash
prefixes get distinct file names. -/
theorem slug_disambiguator_injective_witness :
    ¬ slugify "http://a.example/" = slugify "http://b.example/" :=
  slug_disambiguator_injective "http://a.example/" "http://b.example/"
    (by decide)

/-! ## Claim C2: the byte budget can overshoot by at most one page -/

/-- `finishSave` grows `total_bytes` by at most the byte count its SAVED
signal reports. -/
theorem finishSave_total (env : Env) (l : Ledger) (url : String)
    (t : Option String) (x : String) :
    (finishSave env l url t x).1.total_bytes
      ≤ l.total_bytes + savedBytes (finishSave env l url t x).2 := by
  simp only [finishSave, save_txt]
  split
  · simp [savedBytes]
  · simp [savedBytes]

/-- Each `process_url` call either leaves `total_bytes` unchanged, or was
admitted with the budget still open and grows `total_bytes` by at most the
byte count of its SAVED signal. -/
theorem process_total_le (cfg : Config) (env : Env) (l : Ledger)
    (url : String) :
    (process_url cfg env l url).1.total_bytes = l.total_bytes
    ∨ (l.total_bytes < cfg.max_total_bytes
       ∧ (process_url cfg env l url).1.total_bytes
           ≤ l.total_bytes + savedBytes (process_url cfg env l url).2) := by
  by_cases hv : url ∈ l.seen_urls
  · rw [process_url_visited cfg env l url hv]
    exact .inl rfl
  by_cases hb : cfg.max_total_bytes ≤ l.total_bytes
  · left
    simp [process_url, markVisited, hv, hb]
  right
  refine ⟨Nat.lt_of_not_le hb, ?_⟩
  simp only [process_url, markVisited]
  rw [if_neg hv, if_neg hb]
  split
  · simp [savedBytes]
  · split
    · simp [savedBytes]
    · split
      · split
        · simp [savedBytes]
        · split
          · simp [savedBytes]
          · split
            · simp [savedBytes]
            · split
              · simp [savedBytes]
              · exact finishSave_total env _ url _ _
      · exact finishSave_total env _ url _ _

/-- Appending one event to a trace takes the maximum with its SAVED size. -/
theorem maxSaved_append (tr : Trace) (e : String × Signal) :
    maxSaved (tr ++ [e]) = Nat.max (maxSaved tr) (savedBytes e.2) := by
  simp [maxSaved, List.foldl_append]

/-- The budget invariant survives processing one candidate. -/
theorem processAndLog_inv (cfg : Config) (net : Net) (st : Ledger × Trace)
    (url : String)
    (h : st.1.total_bytes ≤ cfg.max_total_bytes + maxSaved st.2) :
    (processAndLog cfg net st url).1.total_bytes
      ≤ cfg.max_total_bytes + maxSaved (processAndLog cfg net st url).2 := by
  unfold processAndLog
  rw [maxSaved_append]
  rcases process_total_le cfg (net.proc url) st.1 url with h1 | ⟨hb, h2⟩
  · dsimp only
    rw [h1]
    exact le_trans h (Nat.add_le_add_left (Nat.le_max_left _ _) _)
  · dsimp only
    refine le_trans h2 (le_trans (Nat.le_of_lt (Nat.add_lt_add_right hb _)) ?_)
    exact Nat.add_le_add_left (Nat.le_max_right _ _) _

/-- The budget invariant survives the inner link loop. -/
theorem followLinks_inv (cfg : Config) (net : Net) :
    ∀ (links : List String) (st : Ledger × Trace),
      st.1.total_bytes ≤ cfg.max_total_bytes + maxSaved st.2 →
      (followLinks cfg net links st).1.total_bytes
        ≤ cfg.max_total_bytes + maxSaved (followLinks cfg net links st).2
  | [], _, h => h
  | link :: rest, st, h => by
    unfold followLinks
    split
    · exact h
    · exact followLinks_inv cfg net rest _ (processAndLog_inv cfg net st link h)

/-- The budget invariant survives one seed's crawl expansion. -/
theorem crawlSeed_inv (cfg : Config) (net : Net) (seed : String)
    (st : Ledger × Trace)
    (h : st.1.total_bytes ≤ cfg.max_total_bytes + maxSaved st.2) :
    (crawlSeed cfg net seed st).1.total_bytes
      ≤ cfg.max_total_bytes + maxSaved (crawlSeed cfg net seed st).2 := by
  unfold crawlSeed
  split
  · split
    · dsimp only
      rw [maxSaved_append]
      exact le_trans h (Nat.add_le_add_left (Nat.le_max_left _ _) _)
    · split
      · exact followLinks_inv cfg net _ st h
      · exact h
  · exact h

/-- The budget invariant survives the whole seed loop. -/
theorem runSeeds_inv (cfg : Config) (net : Net) :
    ∀ (seeds : List String) (st : Ledger × Trace),
      st.1.total_bytes ≤ cfg.max_total_bytes + maxSaved st.2 →
      (runSeeds cfg net seeds st).1.total_bytes
        ≤ cfg.max_total_bytes + maxSaved (runSeeds cfg net seeds st).2
  | [], _, h => h
  | seed :: rest, st, h => by
    unfold runSeeds
    split
    · exact h
    · exact runSeeds_inv cfg net rest _
        (crawlSeed_inv cfg net seed _ (processAndLog_inv cfg net st seed h))

/-- C2: after any run, `total_bytes` is at most `max_total_bytes` plus the
size of one page — the largest single SAVED page recorded in the run's log.
The budget check runs before each candidate and before each followed link,
never during a write, so only the last accepted page can overshoot. -/
theorem total_bytes_bounded (cfg : Config) (net : Net)
    (seeds : List String) :
    (run cfg net seeds).1.total_bytes
      ≤ cfg.max_total_bytes + maxSaved (run cfg net seeds).2 :=
  runSeeds_inv cfg net seeds (⟨[], [], 0, []⟩, []) (Nat.zero_le _)

end Scrape
